import Mathlib

/-
Verification development for the JetBlue route-planning pipeline.

The pipeline is embedded shallowly: a pandas DataFrame becomes a list of
record structures, one structure per pipeline stage (each stage widens the
row type by the columns it adds).  Monetary and count columns are rationals;
columns that pandas fills with NaN (lags at group boundaries, growth after a
division by zero, unmapped lookups) are `Option ℚ` with `none` as the
undefined sentinel, and every arithmetic helper propagates `none` the way
float NaN propagates through pandas column arithmetic.
-/

set_option maxRecDepth 2000

namespace JetBlue

/-- Division returning the undefined sentinel on a zero divisor
(pandas produces a non-finite float there; the pipeline treats such
values as undefined). -/
def divQ (a b : ℚ) : Option ℚ :=
  if b = 0 then none else some (a / b)

/-- NaN-propagating addition on optional values. -/
def oadd : Option ℚ → Option ℚ → Option ℚ
  | some a, some b => some (a + b)
  | _, _ => none

/-- NaN-propagating division on optional values. -/
def odiv : Option ℚ → Option ℚ → Option ℚ
  | some a, some b => divQ a b
  | _, _ => none

/-- Mean of a list of defined values; `none` on the empty list
(pandas mean of an empty selection is NaN). -/
def meanQ (xs : List ℚ) : Option ℚ :=
  if xs.length = 0 then none else some (xs.sum / xs.length)

/-- Mean that skips undefined entries, as pandas `mean` does with
`skipna=True`; `none` when no entry is defined. -/
def nanMean (xs : List (Option ℚ)) : Option ℚ :=
  meanQ (xs.filterMap id)

/-- `growth(cur, prev) = (cur - prev) / prev`, undefined when the previous
value is undefined (NaN propagation) or zero (division by zero). -/
def growthVal (cur : ℚ) : Option ℚ → Option ℚ
  | none => none
  | some p => if p = 0 then none else some ((cur - p) / p)

/-- Lookup in a fixed association table, as pandas `Series.map` over a dict:
keys not present map to the undefined sentinel. -/
def mapLookup {β : Type} (m : List (String × β)) (k : String) : Option β :=
  (m.find? (fun e => e.1 == k)).map (fun e => e.2)

/-- One raw route-month record, as loaded and cleaned. `month` is the
ordinal of the parsed calendar month. -/
structure RawRow where
  origin : String
  destination : String
  month : Nat
  passengers : ℚ
  avg_fare : ℚ
  seats : ℚ
  distance_miles : ℚ
  competitor_seats : ℚ
  load_factor : ℚ
deriving DecidableEq, Inhabited

/-- Record after `prepare_route_identifier`. -/
structure RouteRow extends RawRow where
  route : String
deriving DecidableEq, Inhabited

/-- Record after `assign_aircraft_types`; unmapped routes carry `none`. -/
structure TypedRow extends RouteRow where
  aircraft_type : Option String
deriving DecidableEq, Inhabited

/-- Record after `add_seat_configuration`. -/
structure EnrichedRow extends TypedRow where
  seats_configured : Option ℚ
deriving DecidableEq, Inhabited

/-- `df.sort_values(["origin", "destination", "month"])` in `enrich_routes`. -/
def sortOriginDestMonth (t : List RawRow) : List RawRow :=
  List.insertionSort
    (fun a b =>
      a.origin.data < b.origin.data ∨
        (a.origin = b.origin ∧
          (a.destination.data < b.destination.data ∨
            (a.destination = b.destination ∧ a.month ≤ b.month)))) t

/-- Row action of `prepare_route_identifier`. -/
def routeRowOf (r : RawRow) : RouteRow :=
  { toRawRow := r, route := r.origin ++ "-" ++ r.destination }

/-- `prepare_route_identifier`: `df["route"] = df["origin"] + "-" + df["destination"]`. -/
def prepare_route_identifier (t : List RawRow) : List RouteRow :=
  t.map routeRowOf

/-- The fixed 10-entry route → aircraft table of `assign_aircraft_types`. -/
def aircraft_map : List (String × String) :=
  [("JFK-LAX", "A321 Mint"),
   ("JFK-SFO", "A321 Mint"),
   ("JFK-SAN", "A321 Mint"),
   ("BOS-SEA", "A321"),
   ("BOS-DEN", "A320"),
   ("BOS-MCO", "A320"),
   ("BOS-CHS", "A220"),
   ("FLL-AUS", "A220"),
   ("FLL-EWR", "A220"),
   ("JFK-AUS", "A320")]

/-- Row action of `assign_aircraft_types`. -/
def typedRowOf (r : RouteRow) : TypedRow :=
  { toRouteRow := r, aircraft_type := mapLookup aircraft_map r.route }

/-- `assign_aircraft_types`: `df["aircraft_type"] = df["route"].map(aircraft_map)`. -/
def assign_aircraft_types (t : List RouteRow) : List TypedRow :=
  t.map typedRowOf

/-- The fixed 4-entry aircraft → seat-count table of `add_seat_configuration`. -/
def seat_map : List (String × ℚ) :=
  [("A220", 140), ("A320", 162), ("A321", 200), ("A321 Mint", 159)]

/-- `add_seat_configuration`: `df["seats_configured"] = df["aircraft_type"].map(seat_map)`;
an undefined aircraft type stays undefined (`Series.map` keeps NaN at NaN);
row action of `add_seat_configuration`. -/
def enrichedRowOf (r : TypedRow) : EnrichedRow :=
  { toTypedRow := r, seats_configured := r.aircraft_type.bind (mapLookup seat_map) }

/-- `add_seat_configuration` as a table map of `enrichedRowOf`. -/
def add_seat_configuration (t : List TypedRow) : List EnrichedRow :=
  t.map enrichedRowOf

/-- `enrich_routes`: sort by (origin, destination, month), derive the route
identifier, assign aircraft types, add seat configuration. -/
def enrich_routes (t : List RawRow) : List EnrichedRow :=
  add_seat_configuration (assign_aircraft_types (prepare_route_identifier (sortOriginDestMonth t)))

/-- Record after `calculate_revenue`. -/
structure RevenueRow extends EnrichedRow where
  revenue : ℚ
deriving DecidableEq, Inhabited

/-- Record after `calculate_cost`. -/
structure CostRow extends RevenueRow where
  cost : ℚ
deriving DecidableEq, Inhabited

/-- Record after `calculate_profit` (profit and profit margin). -/
structure FinRow extends CostRow where
  profit : ℚ
  profit_margin : Option ℚ
deriving DecidableEq, Inhabited

/-- Row action of `calculate_revenue`. -/
def revenueRowOf (r : EnrichedRow) : RevenueRow :=
  { toEnrichedRow := r, revenue := r.passengers * r.avg_fare }

/-- `calculate_revenue`: `df["revenue"] = df["passengers"] * df["avg_fare"]`. -/
def calculate_revenue (t : List EnrichedRow) : List RevenueRow :=
  t.map revenueRowOf

/-- `calculate_cost`: `df["cost"] = df["passengers"] * COST_PER_PAX
+ COST_PER_FLIGHT * FLIGHTS_PER_MONTH` with the constants 65, 18000, 30. -/
def costRowOf (r : RevenueRow) : CostRow :=
  { toRevenueRow := r, cost := r.passengers * 65 + 18000 * 30 }

/-- `calculate_cost` as a table map of `costRowOf`. -/
def calculate_cost (t : List RevenueRow) : List CostRow :=
  t.map costRowOf

/-- `calculate_profit`: `df["profit"] = df["revenue"] - df["cost"]` and
`df["profit_margin"] = df["profit"] / df["revenue"]`. -/
def profitRowOf (r : CostRow) : FinRow :=
  let p := r.revenue - r.cost
  { toCostRow := r, profit := p, profit_margin := divQ p r.revenue }

/-- `calculate_profit` as a table map of `profitRowOf`. -/
def calculate_profit (t : List CostRow) : List FinRow :=
  t.map profitRowOf

/-- `apply_financial_metrics`: revenue, then cost, then profit and margin. -/
def apply_financial_metrics (t : List EnrichedRow) : List FinRow :=
  calculate_profit (calculate_cost (calculate_revenue t))

/-- Record after `add_lag_metrics`: lagged revenue, profit, passengers. -/
structure LagRow extends FinRow where
  lag_revenue : Option ℚ
  lag_profit : Option ℚ
  lag_passengers : Option ℚ
deriving DecidableEq, Inhabited

/-- Record after `calculate_growth`. -/
structure GrowthRow extends LagRow where
  revenue_growth : Option ℚ
  profit_growth : Option ℚ
deriving DecidableEq, Inhabited

/-- Record after `merge_opportunity_score`. -/
structure ScoredRow extends GrowthRow where
  opportunity_score : Option ℚ
deriving DecidableEq, Inhabited

/-- `df.sort_values(["route", "month"])` at the head of `add_lag_metrics`. -/
def sortRouteMonth (t : List FinRow) : List FinRow :=
  List.insertionSort
    (fun a b => a.route.data < b.route.data ∨ (a.route = b.route ∧ a.month ≤ b.month)) t

/-- The most recent already-seen record of route `rte`; `seen` holds the rows
processed so far, most recent first.  This realises the per-group `shift(1)`. -/
def findPrev (rte : String) : List FinRow → Option FinRow
  | [] => none
  | s :: ss => if s.route = rte then some s else findPrev rte ss

/-- Walk the sorted table attaching, to every row, the values of the
immediately preceding row of the same route (pandas
`groupby("route")[col].shift(1)` attaches exactly that previous-row value);
`lagRowOf p r` is the row `r` extended with the lags drawn from `p`. -/
def lagRowOf (p : Option FinRow) (r : FinRow) : LagRow :=
  { toFinRow := r,
    lag_revenue := p.map (fun s => s.revenue),
    lag_profit := p.map (fun s => s.profit),
    lag_passengers := p.map (fun s => s.passengers) }

/-- Walk of the sorted table implementing the per-route `shift(1)`. -/
def lagAux : List FinRow → List FinRow → List LagRow
  | _, [] => []
  | seen, r :: rs => lagRowOf (findPrev r.route seen) r :: lagAux (r :: seen) rs

/-- `add_lag_metrics`: sort by (route, month), then per-route shift of
revenue, profit and passengers. -/
def add_lag_metrics (t : List FinRow) : List LagRow :=
  lagAux [] (sortRouteMonth t)

/-- `calculate_growth`: `(df[X] - df[lag_X]) / df[lag_X]` for revenue and
profit (row-wise; NaN lag or zero lag gives the undefined sentinel). -/
def growthRowOf (r : LagRow) : GrowthRow :=
  { toLagRow := r,
    revenue_growth := growthVal r.revenue r.lag_revenue,
    profit_growth := growthVal r.profit r.lag_profit }

/-- `calculate_growth` as a table map of `growthRowOf`. -/
def calculate_growth (t : List LagRow) : List GrowthRow :=
  t.map growthRowOf

/-- One row of the `build_route_summary` table. -/
structure SummaryRow where
  route : String
  total_revenue : ℚ
  total_profit : ℚ
  avg_revenue_growth : Option ℚ
  avg_profit_growth : Option ℚ
deriving DecidableEq, Inhabited

/-- Summary row after `add_opportunity_score`. -/
structure ScoredSummary extends SummaryRow where
  opportunity_score : Option ℚ
deriving DecidableEq, Inhabited

/-- The distinct group keys of a pandas `groupby("route")`, in sorted order
(`groupby` sorts its keys by default). -/
def routeKeys (t : List GrowthRow) : List String :=
  List.insertionSort (fun a b : String => a.data < b.data ∨ a = b) ((t.map (fun r => r.route)).dedup)

/-- The summary row of one route group. -/
def summaryRowOf (t : List GrowthRow) (k : String) : SummaryRow :=
  let g := t.filter (fun r => r.route == k)
  { route := k,
    total_revenue := (g.map (fun r => r.revenue)).sum,
    total_profit := (g.map (fun r => r.profit)).sum,
    avg_revenue_growth := nanMean (g.map (fun r => r.revenue_growth)),
    avg_profit_growth := nanMean (g.map (fun r => r.profit_growth)) }

/-- `build_route_summary`: group by route; sums of revenue and profit, and
NaN-skipping means of the growth columns. -/
def build_route_summary (t : List GrowthRow) : List SummaryRow :=
  (routeKeys t).map (summaryRowOf t)

/-- `add_opportunity_score`:
`0.5 * avg_profit_growth + 0.5 * avg_revenue_growth` (NaN-propagating). -/
def scoredSummaryOf (e : SummaryRow) : ScoredSummary :=
  { toSummaryRow := e,
    opportunity_score :=
      oadd ((e.avg_profit_growth).map (fun x => (0.5 : ℚ) * x))
        ((e.avg_revenue_growth).map (fun x => (0.5 : ℚ) * x)) }

/-- `add_opportunity_score` as a table map of `scoredSummaryOf`. -/
def add_opportunity_score (s : List SummaryRow) : List ScoredSummary :=
  s.map scoredSummaryOf

/-- `merge_opportunity_score`: left join on `route` against the summary,
whose route keys are unique, so the join is a per-row lookup; a route absent
from the summary would surface an undefined score. -/
def mergedRowOf (s : List ScoredSummary) (r : GrowthRow) : ScoredRow :=
  { toGrowthRow := r,
    opportunity_score :=
      match s.find? (fun e => e.route == r.route) with
      | some e => e.opportunity_score
      | none => none }

/-- `merge_opportunity_score` as a table map of `mergedRowOf`. -/
def merge_opportunity_score (t : List GrowthRow) (s : List ScoredSummary) : List ScoredRow :=
  t.map (mergedRowOf s)

/-- `apply_growth_metrics`: the full growth pipeline of `growth_metrics.py`. -/
def apply_growth_metrics (t : List FinRow) : List ScoredRow × List ScoredSummary :=
  let g := calculate_growth (add_lag_metrics t)
  let s := add_opportunity_score (build_route_summary g)
  (merge_opportunity_score g s, s)

/-- One row of the fleet utilization summary. -/
structure FleetRow where
  aircraft_type : String
  total_passengers : ℚ
  avg_passengers_per_flight : Option ℚ
  seats_configured : Option ℚ
  avg_load_factor_proxy : Option ℚ
deriving DecidableEq, Inhabited

/-- Group keys of `groupby("aircraft_type")`: pandas drops the NaN key
(`dropna=True` by default), so only defined aircraft types form groups. -/
def fleetKeys (t : List EnrichedRow) : List String :=
  List.insertionSort (fun a b : String => a.data < b.data ∨ a = b) ((t.filterMap (fun r => r.aircraft_type)).dedup)

/-- `compute_fleet_utilization`, one group row: total and mean passengers,
the group's `first` non-null `seats_configured` (pandas `GroupBy.first`
skips nulls), and the load-factor proxy. -/
def fleetRowOf (t : List EnrichedRow) (k : String) : FleetRow :=
  let g := t.filter (fun r => r.aircraft_type == some k)
  let avg := meanQ (g.map (fun r => r.passengers))
  let seats := (g.filterMap (fun r => r.seats_configured)).head?
  { aircraft_type := k,
    total_passengers := (g.map (fun r => r.passengers)).sum,
    avg_passengers_per_flight := avg,
    seats_configured := seats,
    avg_load_factor_proxy := odiv avg seats }

/-- `compute_fleet_utilization` as a map of `fleetRowOf` over the group keys. -/
def compute_fleet_utilization (t : List EnrichedRow) : List FleetRow :=
  (fleetKeys t).map (fleetRowOf t)

/-
The notebook code path (src/unnamed/part_000) computes its own growth
features: per-route previous-month passengers and revenue, and passenger and
revenue growth, then a route summary normalised into an opportunity score.
-/

/-- Record after the notebook's lag/growth cells: `passengers_prev`,
`revenue_prev`, `passenger_growth`, `revenue_growth`. -/
structure NBGrowthRow extends FinRow where
  passengers_prev : Option ℚ
  revenue_prev : Option ℚ
  passenger_growth : Option ℚ
  revenue_growth : Option ℚ
deriving DecidableEq, Inhabited

/-- Row of the notebook path: per-route `shift(1)` of passengers and
revenue drawn from the previous row `p`, then the two growth columns. -/
def nbRowOf (p : Option FinRow) (r : FinRow) : NBGrowthRow :=
  { toFinRow := r,
    passengers_prev := p.map (fun s => s.passengers),
    revenue_prev := p.map (fun s => s.revenue),
    passenger_growth := growthVal r.passengers (p.map (fun s => s.passengers)),
    revenue_growth := growthVal r.revenue (p.map (fun s => s.revenue)) }

/-- Walk of the sorted table for the notebook path. -/
def nbAux : List FinRow → List FinRow → List NBGrowthRow
  | _, [] => []
  | seen, r :: rs => nbRowOf (findPrev r.route seen) r :: nbAux (r :: seen) rs

/-- The notebook's growth cells: sort by (route, month), per-route shift of
passengers and revenue, growth = (cur - prev) / prev. -/
def nb_growth_metrics (t : List FinRow) : List NBGrowthRow :=
  nbAux [] (sortRouteMonth t)

/-- One row of the notebook's route summary. -/
structure NBSummary where
  route : String
  avg_profit_margin : Option ℚ
  avg_passenger_growth : Option ℚ
  avg_competitor_seats : Option ℚ
  avg_load_factor : Option ℚ
  total_revenue : ℚ
  total_profit : ℚ
deriving DecidableEq, Inhabited

/-- Group keys of the notebook's `groupby("route")`. -/
def nbRouteKeys (t : List NBGrowthRow) : List String :=
  List.insertionSort (fun a b : String => a.data < b.data ∨ a = b) ((t.map (fun r => r.route)).dedup)

/-- One row of the notebook's `route_summary` aggregation. -/
def nbSummaryOf (t : List NBGrowthRow) (k : String) : NBSummary :=
  let g := t.filter (fun r => r.route == k)
  { route := k,
    avg_profit_margin := nanMean (g.map (fun r => r.profit_margin)),
    avg_passenger_growth := nanMean (g.map (fun r => r.passenger_growth)),
    avg_competitor_seats := meanQ (g.map (fun r => r.competitor_seats)),
    avg_load_factor := meanQ (g.map (fun r => r.load_factor)),
    total_revenue := (g.map (fun r => r.revenue)).sum,
    total_profit := (g.map (fun r => r.profit)).sum }

/-- The notebook's `route_summary` aggregation. -/
def nb_route_summary (t : List NBGrowthRow) : List NBSummary :=
  (nbRouteKeys t).map (nbSummaryOf t)

/-- Minimum of the defined entries of a column (pandas `min` skips NaN);
`none` when no entry is defined. -/
def colMin (xs : List (Option ℚ)) : Option ℚ :=
  match xs.filterMap id with
  | [] => none
  | v :: vs => some (vs.foldl min v)

/-- Maximum of the defined entries of a column; `none` when none is defined. -/
def colMax (xs : List (Option ℚ)) : Option ℚ :=
  match xs.filterMap id with
  | [] => none
  | v :: vs => some (vs.foldl max v)

/-- `min_max_norm(x) = (x - x.min()) / (x.max() - x.min())`, element-wise
over a column: an undefined entry stays undefined; a zero-variance column
(max = min) divides zero by zero, which is undefined; an all-undefined
column normalises to an all-undefined column. -/
def min_max_norm (xs : List (Option ℚ)) : List (Option ℚ) :=
  match colMin xs, colMax xs with
  | some m, some M =>
    xs.map (fun x? => x?.bind (fun x => if M - m = 0 then none else some ((x - m) / (M - m))))
  | _, _ => xs.map (fun _ => none)

/-- Notebook summary row with the normalised columns and opportunity score. -/
structure NBScored extends NBSummary where
  norm_profit_margin : Option ℚ
  norm_passenger_growth : Option ℚ
  norm_competitor_seats : Option ℚ
  opportunity_score : Option ℚ
deriving DecidableEq, Inhabited

/-- The notebook's opportunity-score cells: min-max normalise profit margin,
passenger growth (after `fillna(0)`) and competitor seats, then blend
`0.4 * npm + 0.4 * npg + 0.2 * (1 - ncs)`. -/
def nb_add_opportunity_score (s : List NBSummary) : List NBScored :=
  let npm := min_max_norm (s.map (fun r => r.avg_profit_margin))
  let npg := min_max_norm (s.map (fun r => some ((r.avg_passenger_growth).getD 0)))
  let ncs := min_max_norm (s.map (fun r => r.avg_competitor_seats))
  (List.range s.length).map (fun i =>
    { toNBSummary := s.getD i default,
      norm_profit_margin := npm.getD i none,
      norm_passenger_growth := npg.getD i none,
      norm_competitor_seats := ncs.getD i none,
      opportunity_score :=
        oadd
          (oadd ((npm.getD i none).map (fun x => (0.4 : ℚ) * x))
            ((npg.getD i none).map (fun x => (0.4 : ℚ) * x)))
          ((ncs.getD i none).map (fun x => (0.2 : ℚ) * (1 - x))) })

/-
The Cleaner (`clean_data` of load_and_clean.py) works on raw columns whose
cells may still be strings.  A table is a list of (column name, cells).
The month parser (`pd.to_datetime`) and the numeric parser (`pd.to_numeric`
on one cell) are parameters: the claims about `clean_data` hold for every
choice of parser.
-/

/-- Whitespace as stripped by `str.strip()`. -/
def isSpaceChar (c : Char) : Bool :=
  (c == ' ') || (c == '\t') || (c == '\n') || (c == '\r')

/-- `str.strip()` on a column name: drop leading and trailing whitespace. -/
def strip (s : String) : String :=
  ⟨((s.data.dropWhile isSpaceChar).reverse.dropWhile isSpaceChar).reverse⟩

/-- A raw table cell: a string, a number, or a parsed calendar date. -/
inductive Cell where
  | str : String → Cell
  | num : ℚ → Cell
  | date : Nat → Cell
deriving DecidableEq, Inhabited

/-- Numeric coercion of one cell, as inside `pd.to_numeric`: numbers pass
through, strings must parse, a date cell does not coerce. -/
def cellToNum (parse : String → Option ℚ) : Cell → Option Cell
  | Cell.num q => some (Cell.num q)
  | Cell.str s => (parse s).map Cell.num
  | Cell.date _ => none

/-- Month coercion of one cell, as inside `pd.to_datetime`. -/
def coerceMonth (pdate : String → Option Nat) : Cell → Option Cell
  | Cell.str s => (pdate s).map Cell.date
  | Cell.date d => some (Cell.date d)
  | Cell.num _ => none

/-- `pd.to_datetime` over the month column; any unparsable cell raises,
modelled as `none`. -/
def convMonthCol (pdate : String → Option Nat) : List Cell → Option (List Cell)
  | [] => some []
  | c :: cs =>
    match coerceMonth pdate c, convMonthCol pdate cs with
    | some c2, some cs2 => some (c2 :: cs2)
    | _, _ => none

/-- The `try: pd.to_numeric … except: pass` step on one column: coerce the
whole column when every cell coerces, otherwise leave the column as-is
(the failure is silent). -/
def numCoerce (parse : String → Option ℚ) (col : List Cell) : List Cell :=
  if col.all (fun c => (cellToNum parse c).isSome) then col.filterMap (cellToNum parse)
  else col

/-- Cleaning of one named column: trim the name; the month column goes
through `pd.to_datetime` (which can fail), every other column through the
silent numeric coercion. -/
def cleanCol (pdate : String → Option Nat) (parse : String → Option ℚ)
    (nc : String × List Cell) : Option (String × List Cell) :=
  let n := strip nc.1
  if n = "month" then (convMonthCol pdate nc.2).map (fun col => (n, col))
  else some (n, numCoerce parse nc.2)

/-- `clean_data`: trim all column names, parse the month column, attempt the
silent numeric coercion on the other columns.  The only failure source is an
unparsable month. -/
def clean_data (pdate : String → Option Nat) (parse : String → Option ℚ) :
    List (String × List Cell) → Option (List (String × List Cell))
  | [] => some []
  | nc :: rest =>
    match cleanCol pdate parse nc, clean_data pdate parse rest with
    | some c, some r => some (c :: r)
    | _, _ => none

/-
Concrete tables used by the witnesses: the end-to-end scenario of the spec
(JFK-LAX with three months of passengers 100, 150, 120 and BOS-SEA with two
months 80, 88) plus one route absent from the aircraft lookup.
-/

/-- A raw record with fixed operational fields. -/
def mkRaw (o d : String) (m : Nat) (p fare : ℚ) : RawRow :=
  { origin := o, destination := d, month := m, passengers := p, avg_fare := fare,
    seats := 150, distance_miles := 1000, competitor_seats := 50, load_factor := 1 }

/-- Demo input table: one mapped route and one route absent from the
aircraft lookup. -/
def demoRaw : List RawRow :=
  [mkRaw ("JFK") ("LAX") 1 100 300, mkRaw ("LGA") ("ORD") 1 50 100]

/-- Demo table after route enrichment. -/
def demoEnriched : List EnrichedRow := enrich_routes demoRaw

/-- A financial-stage record given directly by its field values (witness
input for the growth stage, which reads route, month and the metrics). -/
def mkFin (rte : String) (m : Nat) (pax rev cst prof : ℚ) : FinRow :=
  { origin := rte, destination := rte, month := m, passengers := pax, avg_fare := 0,
    seats := 150, distance_miles := 1000, competitor_seats := 50, load_factor := 1,
    route := rte, aircraft_type := none, seats_configured := none,
    revenue := rev, cost := cst, profit := prof, profit_margin := none }

/-- Demo financial table: the spec scenario months for BOS-SEA (revenues
16000 and 17600) plus a single-month route. -/
def demoFin : List FinRow :=
  [mkFin ("BOS-SEA") 1 80 16000 500 15500, mkFin ("BOS-SEA") 2 88 17600 500 17100,
   mkFin ("JFK-LAX") 1 100 30000 600 29400]

/-
Helper lemmas.
-/

theorem get_eq_getD {α : Type} (l : List α) (i : Nat) (h : i < l.length) (d : α) :
    l.get ⟨i, h⟩ = l.getD i d :=
  (List.getD_eq_get l d h).symm

theorem growthVal_none_iff (cur : ℚ) (p? : Option ℚ) :
    growthVal cur p? = none ↔ p? = none ∨ p? = some 0 := by
  cases p? with
  | none => simp [growthVal]
  | some p => by_cases hp : p = 0 <;> simp [growthVal, hp]

theorem growthVal_of_ne (cur p : ℚ) (hp : p ≠ 0) :
    growthVal cur (some p) = some ((cur - p) / p) := by
  simp [growthVal, hp]

theorem sortOriginDestMonth_perm (t : List RawRow) : (sortOriginDestMonth t).Perm t :=
  List.perm_insertionSort _ t

theorem sortRouteMonth_perm (t : List FinRow) : (sortRouteMonth t).Perm t :=
  List.perm_insertionSort _ t

/-- The records of one route, in output order: the route's group inside the
output of `add_lag_metrics`. -/
def routeGroup (t : List FinRow) (rte : String) : List LagRow :=
  (add_lag_metrics t).filter (fun r => r.route == rte)

/-- Lag fields chain along a list: the head's lags are drawn from `prev`,
and every later row's lags are drawn from the row before it. -/
def lagChain (prev : Option FinRow) : List LagRow → Prop
  | [] => True
  | r :: rs =>
      r.lag_revenue = prev.map (fun s => s.revenue) ∧
      r.lag_profit = prev.map (fun s => s.profit) ∧
      r.lag_passengers = prev.map (fun s => s.passengers) ∧
      lagChain (some r.toFinRow) rs

theorem findPrev_cons_self (r : FinRow) (seen : List FinRow) :
    findPrev r.route (r :: seen) = some r := by
  simp [findPrev]

theorem findPrev_cons_ne (r : FinRow) (seen : List FinRow) (rte : String)
    (hne : r.route ≠ rte) : findPrev rte (r :: seen) = findPrev rte seen := by
  simp [findPrev, hne]

theorem lagAux_chain (rest : List FinRow) : ∀ seen rte,
    lagChain (findPrev rte seen) ((lagAux seen rest).filter (fun r => r.route == rte)) := by
  induction rest with
  | nil => intro seen rte; simp [lagAux, List.filter_nil, lagChain]
  | cons r rs ih =>
    intro seen rte
    show lagChain _ ((lagRowOf (findPrev r.route seen) r :: lagAux (r :: seen) rs).filter _)
    rw [List.filter_cons]
    by_cases hc : r.route = rte
    · subst hc
      have hbeq : ((lagRowOf (findPrev r.route seen) r).route == r.route) = true := by
        simp [lagRowOf]
      rw [if_pos hbeq]
      refine ⟨rfl, rfl, rfl, ?_⟩
      have hstep := ih (r :: seen) r.route
      rw [findPrev_cons_self] at hstep
      exact hstep
    · have hbeq : ((lagRowOf (findPrev r.route seen) r).route == rte) = false := by
        simp [lagRowOf, hc]
      rw [if_neg (by simp [hbeq])]
      have hstep := ih (r :: seen) rte
      rw [findPrev_cons_ne r seen rte hc] at hstep
      exact hstep

theorem lagChain_get (g : List LagRow) : ∀ prev, lagChain prev g →
    (∀ h0 : 0 < g.length,
      (g.get ⟨0, h0⟩).lag_revenue = prev.map (fun s => s.revenue) ∧
      (g.get ⟨0, h0⟩).lag_profit = prev.map (fun s => s.profit) ∧
      (g.get ⟨0, h0⟩).lag_passengers = prev.map (fun s => s.passengers)) ∧
    (∀ i (h : i + 1 < g.length),
      (g.get ⟨i + 1, h⟩).lag_revenue = some ((g.get ⟨i, by omega⟩).revenue) ∧
      (g.get ⟨i + 1, h⟩).lag_profit = some ((g.get ⟨i, by omega⟩).profit) ∧
      (g.get ⟨i + 1, h⟩).lag_passengers = some ((g.get ⟨i, by omega⟩).passengers)) := by
  induction g with
  | nil =>
    intro prev _
    exact ⟨fun h0 => absurd h0 (by simp), fun i h => absurd h (by simp)⟩
  | cons r rs ih =>
    intro prev hch
    obtain ⟨h1, h2, h3, hrest⟩ := hch
    refine ⟨fun h0 => ⟨h1, h2, h3⟩, ?_⟩
    intro i h
    cases i with
    | zero => exact (ih (some r.toFinRow) hrest).1 (by simp at h; omega)
    | succ j => exact (ih (some r.toFinRow) hrest).2 j (by simp at h ⊢; omega)

/-- C1: after `add_lag_metrics`, within every route group of the sorted
table the lag fields of revenue, profit and passengers at position i equal
the group's values at position i−1, and are undefined at position 0 — the
lag is the immediately preceding row of the same route in sorted order,
whatever the months are (no calendar-gap awareness). -/
theorem lag_metrics_shift_semantics (t : List FinRow) (rte : String) :
    (∀ h0 : 0 < (routeGroup t rte).length,
      ((routeGroup t rte).get ⟨0, h0⟩).lag_revenue = none ∧
      ((routeGroup t rte).get ⟨0, h0⟩).lag_profit = none ∧
      ((routeGroup t rte).get ⟨0, h0⟩).lag_passengers = none) ∧
    (∀ i (h : i + 1 < (routeGroup t rte).length),
      ((routeGroup t rte).get ⟨i + 1, h⟩).lag_revenue =
        some (((routeGroup t rte).get ⟨i, by omega⟩).revenue) ∧
      ((routeGroup t rte).get ⟨i + 1, h⟩).lag_profit =
        some (((routeGroup t rte).get ⟨i, by omega⟩).profit) ∧
      ((routeGroup t rte).get ⟨i + 1, h⟩).lag_passengers =
        some (((routeGroup t rte).get ⟨i, by omega⟩).passengers)) := by
  have hch : lagChain none (routeGroup t rte) := by
    have h0 := lagAux_chain (sortRouteMonth t) [] rte
    exact h0
  exact lagChain_get _ none hch

/-- Witness for C1 on the demo table, route BOS-SEA. -/
theorem lag_metrics_shift_semantics_witness :
    0 < (routeGroup demoFin ("BOS-SEA")).length ∧
    1 < (routeGroup demoFin ("BOS-SEA")).length ∧
    ((routeGroup demoFin ("BOS-SEA")).get ⟨0, by decide⟩).lag_revenue = none ∧
    ((routeGroup demoFin ("BOS-SEA")).get ⟨1, by decide⟩).lag_revenue =
      some (((routeGroup demoFin ("BOS-SEA")).get ⟨0, by decide⟩).revenue) :=
  ⟨by decide, by decide,
    ((lag_metrics_shift_semantics demoFin ("BOS-SEA")).1 (by decide)).1,
    ((lag_metrics_shift_semantics demoFin ("BOS-SEA")).2 0 (by decide)).1⟩

/-- C5: `assign_aircraft_types` realises exactly the fixed 10-entry route →
aircraft table and `add_seat_configuration` the fixed 4-entry aircraft →
seats table; a route absent from the lookup yields an undefined aircraft
type and hence an undefined seat capacity, and the record is kept (row
count preserved, every input record still present). -/
theorem aircraft_seat_lookup_spec :
    (mapLookup aircraft_map ("JFK-LAX") = some ("A321 Mint") ∧
     mapLookup aircraft_map ("JFK-SFO") = some ("A321 Mint") ∧
     mapLookup aircraft_map ("JFK-SAN") = some ("A321 Mint") ∧
     mapLookup aircraft_map ("BOS-SEA") = some ("A321") ∧
     mapLookup aircraft_map ("BOS-DEN") = some ("A320") ∧
     mapLookup aircraft_map ("BOS-MCO") = some ("A320") ∧
     mapLookup aircraft_map ("BOS-CHS") = some ("A220") ∧
     mapLookup aircraft_map ("FLL-AUS") = some ("A220") ∧
     mapLookup aircraft_map ("FLL-EWR") = some ("A220") ∧
     mapLookup aircraft_map ("JFK-AUS") = some ("A320")) ∧
    (mapLookup seat_map ("A220") = some 140 ∧
     mapLookup seat_map ("A320") = some 162 ∧
     mapLookup seat_map ("A321") = some 200 ∧
     mapLookup seat_map ("A321 Mint") = some 159) ∧
    (∀ t : List RawRow, (enrich_routes t).length = t.length) ∧
    (∀ t : List RawRow, ∀ r ∈ enrich_routes t,
      r.route = r.origin ++ "-" ++ r.destination ∧
      r.aircraft_type = mapLookup aircraft_map r.route ∧
      r.seats_configured = r.aircraft_type.bind (mapLookup seat_map)) ∧
    (∀ k : String, (∀ e ∈ aircraft_map, e.1 ≠ k) → mapLookup aircraft_map k = none) ∧
    (∀ t : List RawRow, ∀ r ∈ enrich_routes t,
      r.aircraft_type = none → r.seats_configured = none) ∧
    (∀ t : List RawRow, ∀ r0 ∈ t, ∃ r ∈ enrich_routes t, r.toRawRow = r0) := by
  refine ⟨by decide, by decide, ?_, ?_, ?_, ?_, ?_⟩
  · intro t
    simp only [enrich_routes, add_seat_configuration, assign_aircraft_types,
      prepare_route_identifier, List.length_map]
    exact (sortOriginDestMonth_perm t).length_eq
  · intro t r hr
    simp only [enrich_routes, add_seat_configuration, assign_aircraft_types,
      prepare_route_identifier, List.mem_map] at hr
    obtain ⟨b, ⟨a, ⟨c, _, rfl⟩, rfl⟩, rfl⟩ := hr
    exact ⟨rfl, rfl, rfl⟩
  · intro k hk
    have hnone : aircraft_map.find? (fun e => e.1 == k) = none :=
      List.find?_eq_none.mpr (fun x hx => by simpa using hk x hx)
    simp [mapLookup, hnone]
  · intro t r hr hnone
    simp only [enrich_routes, add_seat_configuration, assign_aircraft_types,
      prepare_route_identifier, List.mem_map] at hr
    obtain ⟨b, ⟨a, ⟨c, _, rfl⟩, rfl⟩, rfl⟩ := hr
    show ((typedRowOf (routeRowOf c)).aircraft_type).bind (mapLookup seat_map) = none
    rw [show (typedRowOf (routeRowOf c)).aircraft_type = none from hnone]
    rfl
  · intro t r0 h0
    refine ⟨enrichedRowOf (typedRowOf (routeRowOf r0)), ?_, rfl⟩
    simp only [enrich_routes, add_seat_configuration, assign_aircraft_types,
      prepare_route_identifier, List.mem_map]
    exact ⟨typedRowOf (routeRowOf r0), ⟨routeRowOf r0,
      ⟨r0, (sortOriginDestMonth_perm t).mem_iff.mpr h0, rfl⟩, rfl⟩, rfl⟩

/-- Witness for C5: the demo route LGA-ORD is absent from the lookup and
maps to an undefined aircraft type. -/
theorem aircraft_seat_lookup_spec_witness :
    (∀ e ∈ aircraft_map, e.1 ≠ ("LGA-ORD")) ∧
    mapLookup aircraft_map ("LGA-ORD") = none :=
  ⟨by decide, aircraft_seat_lookup_spec.2.2.2.2.1 ("LGA-ORD") (by decide)⟩

theorem routeKeys_nodup (t : List GrowthRow) : (routeKeys t).Nodup :=
  ((List.perm_insertionSort _ _).nodup_iff).mpr (List.nodup_dedup _)

theorem mem_routeKeys (t : List GrowthRow) (k : String) :
    k ∈ routeKeys t ↔ k ∈ t.map (fun r => r.route) := by
  unfold routeKeys
  rw [(List.perm_insertionSort _ _).mem_iff, List.mem_dedup]

theorem summary_routes (t : List GrowthRow) :
    (add_opportunity_score (build_route_summary t)).map (fun e => e.route) = routeKeys t := by
  simp only [add_opportunity_score, build_route_summary, List.map_map]
  have : ((fun e : ScoredSummary => e.route) ∘ scoredSummaryOf ∘ summaryRowOf t) =
      fun k => k := by
    funext k
    rfl
  rw [this]
  exact List.map_id _

theorem find?_route_unique (s : List ScoredSummary)
    (hnd : (s.map (fun e => e.route)).Nodup) (e : ScoredSummary) (he : e ∈ s)
    (k : String) (hk : e.route = k) :
    s.find? (fun x => x.route == k) = some e := by
  induction s with
  | nil => cases he
  | cons a as ih =>
    rw [List.find?_cons]
    rcases List.mem_cons.mp he with rfl | hmem
    · rw [show (e.route == k) = true from beq_iff_eq.mpr hk]
    · have hnd2 := hnd
      simp only [List.map_cons, List.nodup_cons] at hnd2
      have hne : (a.route == k) = false := by
        refine beq_eq_false_iff_ne.mpr ?_
        intro hak
        exact hnd2.1 (by rw [hak, ← hk]; exact List.mem_map_of_mem _ hmem)
      rw [hne]
      exact ih hnd2.2 hmem

/-- C4: the merge-back step preserves the records of the growth table (same
length, each record identical to the input record at its position), and
every record's opportunity score equals the unique summary entry of its
route — so each route's records carry exactly one score value, the
summary-level one. -/
theorem merge_back_broadcast (t : List FinRow) :
    ((apply_growth_metrics t).1.length = (calculate_growth (add_lag_metrics t)).length) ∧
    (∀ i (h1 : i < (apply_growth_metrics t).1.length)
       (h2 : i < (calculate_growth (add_lag_metrics t)).length),
      ((apply_growth_metrics t).1.get ⟨i, h1⟩).toGrowthRow =
        (calculate_growth (add_lag_metrics t)).get ⟨i, h2⟩) ∧
    (((apply_growth_metrics t).2.map (fun e => e.route)).Nodup) ∧
    (∀ r ∈ (apply_growth_metrics t).1, ∃ e ∈ (apply_growth_metrics t).2,
      e.route = r.route ∧ r.opportunity_score = e.opportunity_score) ∧
    (∀ r ∈ (apply_growth_metrics t).1, ∀ e ∈ (apply_growth_metrics t).2,
      e.route = r.route → r.opportunity_score = e.opportunity_score) ∧
    (∀ r1 ∈ (apply_growth_metrics t).1, ∀ r2 ∈ (apply_growth_metrics t).1,
      r1.route = r2.route → r1.opportunity_score = r2.opportunity_score) := by
  have hnd : (((apply_growth_metrics t).2).map (fun e => e.route)).Nodup := by
    rw [show (apply_growth_metrics t).2 =
      add_opportunity_score (build_route_summary (calculate_growth (add_lag_metrics t)))
      from rfl, summary_routes]
    exact routeKeys_nodup _
  have hscore : ∀ r ∈ (apply_growth_metrics t).1, ∀ e ∈ (apply_growth_metrics t).2,
      e.route = r.route → r.opportunity_score = e.opportunity_score := by
    intro r hr e he hre
    obtain ⟨a, _, rfl⟩ := List.mem_map.mp hr
    have hfind := find?_route_unique _ hnd e he a.route hre
    show (match (apply_growth_metrics t).2.find? (fun x => x.route == a.route) with
      | some x => x.opportunity_score
      | none => none) = e.opportunity_score
    rw [hfind]
  have hexist : ∀ r ∈ (apply_growth_metrics t).1, ∃ e ∈ (apply_growth_metrics t).2,
      e.route = r.route ∧ r.opportunity_score = e.opportunity_score := by
    intro r hr
    obtain ⟨a, ha, rfl⟩ := List.mem_map.mp hr
    have hkey : a.route ∈ ((apply_growth_metrics t).2).map (fun e => e.route) := by
      rw [show (apply_growth_metrics t).2 =
        add_opportunity_score (build_route_summary (calculate_growth (add_lag_metrics t)))
        from rfl, summary_routes, mem_routeKeys]
      exact List.mem_map_of_mem _ ha
    obtain ⟨e, he, hre⟩ := List.mem_map.mp hkey
    exact ⟨e, he, hre, hscore _ (List.mem_map_of_mem _ ha) e he hre⟩
  refine ⟨by simp [apply_growth_metrics, merge_opportunity_score], ?_, hnd, hexist, hscore, ?_⟩
  · intro i h1 h2
    show ((List.map (mergedRowOf _) (calculate_growth (add_lag_metrics t))).get
      ⟨i, h1⟩).toGrowthRow = _
    rw [List.get_map]
    exact rfl
  · intro r1 h1 r2 h2 hroutes
    obtain ⟨e, he, hre, hse⟩ := hexist r1 h1
    have := hscore r2 h2 e he (by rw [hre, hroutes])
    rw [hse, this]

/-- Witness for C4 on the demo table: two records of the same route carry
the same opportunity score. -/
theorem merge_back_broadcast_witness :
    1 < (apply_growth_metrics demoFin).1.length ∧
    ((apply_growth_metrics demoFin).1.get ⟨0, by decide⟩).route =
      ((apply_growth_metrics demoFin).1.get ⟨1, by decide⟩).route ∧
    ((apply_growth_metrics demoFin).1.get ⟨0, by decide⟩).opportunity_score =
      ((apply_growth_metrics demoFin).1.get ⟨1, by decide⟩).opportunity_score :=
  ⟨by decide, by decide,
    (merge_back_broadcast demoFin).2.2.2.2.2 _ (List.get_mem _ 0 (by decide)) _
      (List.get_mem _ 1 (by decide)) (by decide)⟩

theorem convMonthCol_isSome (pdate : String → Option Nat) (col : List Cell)
    (h : ∀ c ∈ col, (coerceMonth pdate c).isSome) : (convMonthCol pdate col).isSome := by
  induction col with
  | nil => simp [convMonthCol]
  | cons c cs ih =>
    have hc := h c (List.mem_cons_self c cs)
    have hcs := ih (fun x hx => h x (List.mem_cons_of_mem c hx))
    rw [convMonthCol]
    obtain ⟨c2, hc2⟩ := Option.isSome_iff_exists.mp hc
    obtain ⟨cs2, hcs2⟩ := Option.isSome_iff_exists.mp hcs
    rw [hc2, hcs2]
    rfl

theorem convMonthCol_length (pdate : String → Option Nat) (col : List Cell) :
    ∀ col2, convMonthCol pdate col = some col2 → col2.length = col.length := by
  induction col with
  | nil =>
    intro col2 h
    simp [convMonthCol] at h
    simp [← h]
  | cons c cs ih =>
    intro col2 h
    rw [convMonthCol] at h
    cases hc : coerceMonth pdate c <;> rw [hc] at h
    · cases h
    cases hcs : convMonthCol pdate cs <;> rw [hcs] at h
    · cases h
    cases h
    simp [ih _ hcs]

theorem filterMap_cellToNum_length (parse : String → Option ℚ) (col : List Cell)
    (h : col.all (fun c => (cellToNum parse c).isSome)) :
    (col.filterMap (cellToNum parse)).length = col.length := by
  induction col with
  | nil => rfl
  | cons c cs ih =>
    rw [List.all_cons, Bool.and_eq_true] at h
    obtain ⟨c2, hc2⟩ := Option.isSome_iff_exists.mp h.1
    rw [List.filterMap_cons, hc2]
    simp [ih h.2]

theorem numCoerce_length (parse : String → Option ℚ) (col : List Cell) :
    (numCoerce parse col).length = col.length := by
  unfold numCoerce
  by_cases h : col.all (fun c => (cellToNum parse c).isSome)
  · rw [if_pos h]
    exact filterMap_cellToNum_length parse col h
  · rw [if_neg h]

theorem numCoerce_of_failure (parse : String → Option ℚ) (col : List Cell)
    (h : ∃ c ∈ col, cellToNum parse c = none) : numCoerce parse col = col := by
  unfold numCoerce
  rw [if_neg]
  intro hall
  obtain ⟨c, hc, hnone⟩ := h
  have := List.all_eq_true.mp hall c hc
  rw [hnone] at this
  cases this

theorem convMonthCol_get (pdate : String → Option Nat) (col : List Cell) :
    ∀ col2, convMonthCol pdate col = some col2 →
      ∀ j (hj : j < col.length) (hj2 : j < col2.length),
        coerceMonth pdate (col.get ⟨j, hj⟩) = some (col2.get ⟨j, hj2⟩) := by
  induction col with
  | nil =>
    intro col2 h j hj
    exact absurd hj (by simp)
  | cons c cs ih =>
    intro col2 h j hj hj2
    rw [convMonthCol] at h
    rcases hc : coerceMonth pdate c with _ | c2
    · rw [hc] at h
      cases h
    rcases hcs : convMonthCol pdate cs with _ | cs2
    · rw [hc, hcs] at h
      cases h
    rw [hc, hcs] at h
    cases h
    cases j with
    | zero => exact hc
    | succ k => exact ih cs2 hcs k (by simpa using hj) (by simpa using hj2)

theorem filterMap_cellToNum_get (parse : String → Option ℚ) (col : List Cell)
    (h : col.all (fun c => (cellToNum parse c).isSome)) :
    ∀ j (hj : j < col.length) (hj2 : j < (col.filterMap (cellToNum parse)).length),
      cellToNum parse (col.get ⟨j, hj⟩) =
        some ((col.filterMap (cellToNum parse)).get ⟨j, hj2⟩) := by
  induction col with
  | nil =>
    intro j hj
    exact absurd hj (by simp)
  | cons c cs ih =>
    rw [List.all_cons, Bool.and_eq_true] at h
    obtain ⟨c2, hc2⟩ := Option.isSome_iff_exists.mp h.1
    have hfm : (c :: cs).filterMap (cellToNum parse) =
        c2 :: cs.filterMap (cellToNum parse) := by
      rw [List.filterMap_cons, hc2]
    intro j hj hj2
    cases j with
    | zero =>
      rw [get_eq_getD _ 0 hj2 (Cell.num 0), hfm]
      exact hc2
    | succ k =>
      have hk2 : k < (cs.filterMap (cellToNum parse)).length := by
        have hh := hj2
        rw [hfm] at hh
        simpa using hh
      rw [get_eq_getD _ (k + 1) hj2 (Cell.num 0), hfm,
        List.getD_eq_get _ _ (by simpa using hk2)]
      exact ih h.2 k (by simpa using hj) hk2

theorem cleanCol_get_spec (pdate : String → Option Nat) (parse : String → Option ℚ)
    (nc : String × List Cell) :
    ∀ c, cleanCol pdate parse nc = some c →
      (strip nc.1 = "month" →
        ∀ j (hj : j < nc.2.length) (hj2 : j < c.2.length),
          coerceMonth pdate (nc.2.get ⟨j, hj⟩) = some (c.2.get ⟨j, hj2⟩)) ∧
      (strip nc.1 ≠ "month" →
        c.2 = nc.2 ∨
        ∀ j (hj : j < nc.2.length) (hj2 : j < c.2.length),
          cellToNum parse (nc.2.get ⟨j, hj⟩) = some (c.2.get ⟨j, hj2⟩)) := by
  intro c hc
  unfold cleanCol at hc
  by_cases hm : strip nc.1 = "month"
  · rw [if_pos hm] at hc
    rcases hcol : convMonthCol pdate nc.2 with _ | col2
    · rw [hcol] at hc
      cases hc
    rw [hcol] at hc
    cases hc
    refine ⟨fun _ => ?_, fun hne => absurd hm hne⟩
    exact convMonthCol_get pdate nc.2 col2 hcol
  · rw [if_neg hm] at hc
    cases hc
    refine ⟨fun hmm => absurd hmm hm, fun _ => ?_⟩
    by_cases hall : nc.2.all (fun x => (cellToNum parse x).isSome)
    · right
      have he : numCoerce parse nc.2 = nc.2.filterMap (cellToNum parse) := by
        unfold numCoerce
        rw [if_pos hall]
      intro j hj hj2
      show cellToNum parse (nc.2.get ⟨j, hj⟩) =
        some ((numCoerce parse nc.2).get ⟨j, hj2⟩)
      have hj3 : j < (nc.2.filterMap (cellToNum parse)).length := by
        rw [filterMap_cellToNum_length parse nc.2 hall]
        exact hj
      rw [get_eq_getD _ j hj2 (Cell.num 0), he, List.getD_eq_get _ _ hj3]
      exact filterMap_cellToNum_get parse nc.2 hall j hj hj3
    · left
      show numCoerce parse nc.2 = nc.2
      unfold numCoerce
      rw [if_neg hall]

theorem cleanCol_spec (pdate : String → Option Nat) (parse : String → Option ℚ)
    (nc : String × List Cell) :
    ∀ c, cleanCol pdate parse nc = some c →
      c.1 = strip nc.1 ∧ c.2.length = nc.2.length ∧
      (strip nc.1 ≠ "month" → c.2 = numCoerce parse nc.2) := by
  intro c hc
  unfold cleanCol at hc
  by_cases hm : strip nc.1 = "month"
  · rw [if_pos hm] at hc
    cases hcol : convMonthCol pdate nc.2 <;> rw [hcol] at hc
    · cases hc
    cases hc
    exact ⟨rfl, convMonthCol_length pdate nc.2 _ hcol, fun hne => absurd hm hne⟩
  · rw [if_neg hm] at hc
    cases hc
    exact ⟨rfl, numCoerce_length parse nc.2, fun _ => rfl⟩

/-- C7: `clean_data` never fails because of a column that cannot be coerced
to numeric — the only failure source is month parsing, so whenever the month
column parses (or is absent) the clean succeeds, whatever the other columns
hold; and the output has exactly the input's columns in order, with names
trimmed and every column of the input's length, cell for cell in the
input's order: a month cell at position j is the parse of the input cell at
position j, a coerced column's cell at position j is the coercion of the
input cell at position j, and a non-coercible non-month column passes
through completely unchanged — no rows are dropped or reordered. -/
theorem clean_data_silent_and_preserving (pdate : String → Option Nat)
    (parse : String → Option ℚ) :
    (∀ t : List (String × List Cell),
      (∀ nc ∈ t, strip nc.1 = "month" → ∀ c ∈ nc.2, (coerceMonth pdate c).isSome) →
        (clean_data pdate parse t).isSome) ∧
    (∀ t out, clean_data pdate parse t = some out →
      out.length = t.length ∧
      ∀ i (h : i < t.length) (h2 : i < out.length),
        (out.get ⟨i, h2⟩).1 = strip (t.get ⟨i, h⟩).1 ∧
        (out.get ⟨i, h2⟩).2.length = (t.get ⟨i, h⟩).2.length ∧
        (strip (t.get ⟨i, h⟩).1 ≠ "month" →
          (∃ c ∈ (t.get ⟨i, h⟩).2, cellToNum parse c = none) →
          (out.get ⟨i, h2⟩).2 = (t.get ⟨i, h⟩).2) ∧
        (strip (t.get ⟨i, h⟩).1 = "month" →
          ∀ j (hj : j < (t.get ⟨i, h⟩).2.length) (hj2 : j < (out.get ⟨i, h2⟩).2.length),
            coerceMonth pdate ((t.get ⟨i, h⟩).2.get ⟨j, hj⟩) =
              some ((out.get ⟨i, h2⟩).2.get ⟨j, hj2⟩)) ∧
        (strip (t.get ⟨i, h⟩).1 ≠ "month" →
          (out.get ⟨i, h2⟩).2 = (t.get ⟨i, h⟩).2 ∨
          ∀ j (hj : j < (t.get ⟨i, h⟩).2.length) (hj2 : j < (out.get ⟨i, h2⟩).2.length),
            cellToNum parse ((t.get ⟨i, h⟩).2.get ⟨j, hj⟩) =
              some ((out.get ⟨i, h2⟩).2.get ⟨j, hj2⟩))) := by
  constructor
  · intro t
    induction t with
    | nil => intro _; rw [clean_data]; rfl
    | cons nc rest ih =>
      intro hall
      have hrest := ih (fun x hx => hall x (List.mem_cons_of_mem nc hx))
      have hcol : (cleanCol pdate parse nc).isSome := by
        unfold cleanCol
        by_cases hm : strip nc.1 = "month"
        · rw [if_pos hm]
          have := convMonthCol_isSome pdate nc.2 (hall nc (List.mem_cons_self nc rest) hm)
          obtain ⟨col2, hcol2⟩ := Option.isSome_iff_exists.mp this
          rw [hcol2]
          rfl
        · rw [if_neg hm]
          rfl
      rw [clean_data]
      obtain ⟨c, hc⟩ := Option.isSome_iff_exists.mp hcol
      obtain ⟨r, hr⟩ := Option.isSome_iff_exists.mp hrest
      rw [hc, hr]
      rfl
  · intro t
    induction t with
    | nil =>
      intro out hout
      rw [clean_data] at hout
      cases hout
      exact ⟨rfl, fun i h _ => absurd h (by simp)⟩
    | cons nc rest ih =>
      intro out hout
      rw [clean_data] at hout
      rcases hc : cleanCol pdate parse nc with _ | c
      · rw [hc] at hout
        cases hout
      rcases hr : clean_data pdate parse rest with _ | r
      · rw [hc, hr] at hout
        cases hout
      rw [hc, hr] at hout
      cases hout
      obtain ⟨hlen, hinner⟩ := ih _ hr
      obtain ⟨hn, hl, hnc⟩ := cleanCol_spec pdate parse nc _ hc
      obtain ⟨hmonth, hother⟩ := cleanCol_get_spec pdate parse nc _ hc
      refine ⟨by simp [hlen], ?_⟩
      intro i h h2
      cases i with
      | zero =>
        refine ⟨hn, hl, ?_, hmonth, hother⟩
        intro hne hfail
        show c.2 = nc.2
        rw [hnc hne]
        exact numCoerce_of_failure parse nc.2 hfail
      | succ j =>
        exact hinner j (by simpa using h) (by simpa using h2)

theorem min_max_norm_eq_some (xs : List (Option ℚ)) (m M : ℚ)
    (hmin : colMin xs = some m) (hmax : colMax xs = some M) :
    min_max_norm xs =
      xs.map (fun x? => x?.bind
        (fun x => if M - m = 0 then none else some ((x - m) / (M - m)))) := by
  unfold min_max_norm
  rw [hmin, hmax]

theorem min_max_norm_eq_undef (xs : List (Option ℚ))
    (h : colMin xs = none ∨ colMax xs = none) :
    min_max_norm xs = xs.map (fun _ => none) := by
  unfold min_max_norm
  rcases h with h | h
  · rw [h]
  · cases h1 : colMin xs
    · rw [h]
    · rw [h]

theorem min_max_norm_length (xs : List (Option ℚ)) :
    (min_max_norm xs).length = xs.length := by
  cases h1 : colMin xs with
  | none => rw [min_max_norm_eq_undef xs (Or.inl h1), List.length_map]
  | some m =>
    cases h2 : colMax xs with
    | none => rw [min_max_norm_eq_undef xs (Or.inr h2), List.length_map]
    | some M => rw [min_max_norm_eq_some xs m M h1 h2, List.length_map]

theorem min_max_norm_get_none (xs : List (Option ℚ)) (i : Nat) (h : i < xs.length)
    (h2 : i < (min_max_norm xs).length) (hx : xs.get ⟨i, h⟩ = none) :
    (min_max_norm xs).get ⟨i, h2⟩ = none := by
  rw [get_eq_getD _ i h2 none]
  cases h1 : colMin xs with
  | none =>
    rw [min_max_norm_eq_undef xs (Or.inl h1),
      List.getD_eq_get _ _ (by simpa using h), List.get_map]
  | some m =>
    cases hM : colMax xs with
    | none =>
      rw [min_max_norm_eq_undef xs (Or.inr hM),
        List.getD_eq_get _ _ (by simpa using h), List.get_map]
    | some M =>
      rw [min_max_norm_eq_some xs m M h1 hM,
        List.getD_eq_get _ _ (by simpa using h), List.get_map,
        show xs.get ⟨i, by simpa using h⟩ = none from hx]
      rfl

theorem nb_score_get_npm (s : List NBSummary) (i : Nat)
    (h2 : i < (nb_add_opportunity_score s).length) :
    ((nb_add_opportunity_score s).get ⟨i, h2⟩).norm_profit_margin =
      (min_max_norm (s.map (fun r => r.avg_profit_margin))).getD i none := by
  rw [get_eq_getD _ i h2 default]
  unfold nb_add_opportunity_score
  rw [List.getD_eq_get _ _ (by simpa [nb_add_opportunity_score] using h2),
    List.get_map, List.get_range]

theorem nb_score_get_npg (s : List NBSummary) (i : Nat)
    (h2 : i < (nb_add_opportunity_score s).length) :
    ((nb_add_opportunity_score s).get ⟨i, h2⟩).norm_passenger_growth =
      (min_max_norm (s.map (fun r => some ((r.avg_passenger_growth).getD 0)))).getD i
        none := by
  rw [get_eq_getD _ i h2 default]
  unfold nb_add_opportunity_score
  rw [List.getD_eq_get _ _ (by simpa [nb_add_opportunity_score] using h2),
    List.get_map, List.get_range]

/-- C8: `min_max_norm` maps every defined entry attaining the column minimum
to exactly 0 and every entry attaining the maximum to exactly 1 whenever the
column has nonzero variance; in the notebook's opportunity-score step the
passenger-growth column is normalised after `fillna(0)`, so an undefined
average passenger growth enters the normalisation as 0, while an undefined
average profit margin gets no substitution and stays undefined through the
normalisation. -/
theorem min_max_norm_endpoints_and_fillna :
    (∀ xs : List (Option ℚ), ∀ m M : ℚ,
      colMin xs = some m → colMax xs = some M → m ≠ M →
      ∀ i (h : i < xs.length) (h2 : i < (min_max_norm xs).length),
        (xs.get ⟨i, h⟩ = some m → (min_max_norm xs).get ⟨i, h2⟩ = some 0) ∧
        (xs.get ⟨i, h⟩ = some M → (min_max_norm xs).get ⟨i, h2⟩ = some 1)) ∧
    (∀ s : List NBSummary, ∀ i (h : i < s.length)
        (h2 : i < (nb_add_opportunity_score s).length),
      ((nb_add_opportunity_score s).get ⟨i, h2⟩).norm_passenger_growth =
        (min_max_norm (s.map (fun r => some ((r.avg_passenger_growth).getD 0)))).getD i
          none ∧
      ((s.get ⟨i, h⟩).avg_passenger_growth = none →
        (s.map (fun r => some ((r.avg_passenger_growth).getD 0))).getD i none =
          some 0) ∧
      ((s.get ⟨i, h⟩).avg_profit_margin = none →
        ((nb_add_opportunity_score s).get ⟨i, h2⟩).norm_profit_margin = none)) := by
  constructor
  · intro xs m M hmin hmax hne i h h2
    have hMm : M - m ≠ 0 := sub_ne_zero.mpr (Ne.symm hne)
    have hget : (min_max_norm xs).get ⟨i, h2⟩ =
        (xs.get ⟨i, h⟩).bind
          (fun x => if M - m = 0 then none else some ((x - m) / (M - m))) := by
      rw [get_eq_getD _ i h2 none, min_max_norm_eq_some xs m M hmin hmax,
        List.getD_eq_get _ _ (by simpa using h), List.get_map]
    constructor
    · intro hx
      rw [hget, hx]
      simp [hMm]
    · intro hx
      rw [hget, hx]
      simp [hMm, div_self hMm]
  · intro s i h h2
    refine ⟨nb_score_get_npg s i h2, ?_, ?_⟩
    · intro hx
      have hlt : i < (s.map (fun r => some ((r.avg_passenger_growth).getD 0))).length := by
        simpa using h
      rw [List.getD_eq_get _ _ hlt, List.get_map]
      rw [show (s.get ⟨i, h⟩).avg_passenger_growth = none from hx]
      rfl
    · intro hx
      rw [nb_score_get_npm s i h2]
      have hlt : i < (min_max_norm (s.map (fun r => r.avg_profit_margin))).length := by
        rw [min_max_norm_length]
        simpa using h
      rw [List.getD_eq_get _ _ hlt]
      refine min_max_norm_get_none _ i (by simpa using h) hlt ?_
      rw [List.get_map]
      exact hx

/-- A concrete summary column with nonzero variance. -/
def demoCol : List (Option ℚ) := [some 3, some 1, none]

/-- A concrete notebook summary row with undefined growth and margin. -/
def demoSummary : List NBSummary :=
  [{ route := "X-Y", avg_profit_margin := none, avg_passenger_growth := none,
     avg_competitor_seats := some 1, avg_load_factor := some 1,
     total_revenue := 0, total_profit := 0 }]

/-- Witness for C8: the minimum entry normalises to 0, the undefined
passenger growth enters as 0, and the undefined profit margin stays
undefined. -/
theorem min_max_norm_endpoints_and_fillna_witness :
    colMin demoCol = some 1 ∧ colMax demoCol = some 3 ∧ (1 : ℚ) ≠ 3 ∧
    1 < demoCol.length ∧ 1 < (min_max_norm demoCol).length ∧
    (min_max_norm demoCol).get ⟨1, by decide⟩ = some 0 ∧
    0 < demoSummary.length ∧ 0 < (nb_add_opportunity_score demoSummary).length ∧
    (demoSummary.map (fun r => some ((r.avg_passenger_growth).getD 0))).getD 0 none =
      some 0 ∧
    ((nb_add_opportunity_score demoSummary).get ⟨0, by decide⟩).norm_profit_margin =
      none := by
  refine ⟨by decide, by decide, by decide, by decide, by decide, ?_, by decide,
    by decide, ?_, ?_⟩
  · exact (min_max_norm_endpoints_and_fillna.1 demoCol 1 3 (by decide) (by decide)
      (by decide) 1 (by decide) (by decide)).1 (by decide)
  · exact (min_max_norm_endpoints_and_fillna.2 demoSummary 0 (by decide)
      (by decide)).2.1 (by decide)
  · exact (min_max_norm_endpoints_and_fillna.2 demoSummary 0 (by decide)
      (by decide)).2.2 (by decide)

/-- A concrete month parser for the witness. -/
def pdate0 (s : String) : Option Nat :=
  if s = "2024-01" then some 1 else none

/-- A concrete cell-level numeric parser for the witness. -/
def parse0 (s : String) : Option ℚ :=
  if s = "7" then some 7 else none

/-- A concrete raw three-column table: a month column that parses, a string
column that cannot be coerced, a column that coerces. -/
def demoTable : List (String × List Cell) :=
  [(" month", [Cell.str ("2024-01")]),
   ("origin", [Cell.str ("JFK")]),
   ("passengers", [Cell.str ("7")])]

/-- The cleaned form of the demo table. -/
def demoCleaned : List (String × List Cell) :=
  [("month", [Cell.date 1]), ("origin", [Cell.str ("JFK")]),
   ("passengers", [Cell.num 7])]

/-- Witness for C7: the clean succeeds on the demo table although the
origin column cannot be coerced; that column passes through unchanged,
the month cell at position 0 is the parse of the input cell at position 0,
and the coerced passengers cell at position 0 is the coercion of the input
cell at position 0. -/
theorem clean_data_silent_and_preserving_witness :
    (∀ nc ∈ demoTable, strip nc.1 = "month" →
      ∀ c ∈ nc.2, (coerceMonth pdate0 c).isSome) ∧
    (clean_data pdate0 parse0 demoTable).isSome ∧
    (clean_data pdate0 parse0 demoTable = some demoCleaned) ∧
    ((demoCleaned.get ⟨1, by decide⟩).2 = (demoTable.get ⟨1, by decide⟩).2) ∧
    (coerceMonth pdate0 ((demoTable.get ⟨0, by decide⟩).2.get ⟨0, by decide⟩) =
      some ((demoCleaned.get ⟨0, by decide⟩).2.get ⟨0, by decide⟩)) ∧
    (cellToNum parse0 ((demoTable.get ⟨2, by decide⟩).2.get ⟨0, by decide⟩) =
      some ((demoCleaned.get ⟨2, by decide⟩).2.get ⟨0, by decide⟩)) :=
  ⟨by decide,
    (clean_data_silent_and_preserving pdate0 parse0).1 demoTable (by decide),
    by decide,
    (((clean_data_silent_and_preserving pdate0 parse0).2 demoTable demoCleaned
      (by decide)).2 1 (by decide) (by decide)).2.2.1 (by decide) (by decide),
    (((clean_data_silent_and_preserving pdate0 parse0).2 demoTable demoCleaned
      (by decide)).2 0 (by decide) (by decide)).2.2.2.1 (by decide) 0 (by decide)
      (by decide),
    ((((clean_data_silent_and_preserving pdate0 parse0).2 demoTable demoCleaned
      (by decide)).2 2 (by decide) (by decide)).2.2.2.2 (by decide)).resolve_left
      (by decide) 0 (by decide) (by decide)⟩

theorem nbAux_growth (rest : List FinRow) : ∀ seen, ∀ r ∈ nbAux seen rest,
    r.passenger_growth = growthVal r.passengers r.passengers_prev ∧
    r.revenue_growth = growthVal r.revenue r.revenue_prev := by
  induction rest with
  | nil => intro seen r hr; cases hr
  | cons a rs ih =>
    intro seen r hr
    rcases List.mem_cons.mp hr with rfl | hmem
    · exact ⟨rfl, rfl⟩
    · exact ih _ r hmem

/-- C6: growth is supported for all three economic quantities.  Revenue and
profit growth come from the scripts pipeline (`calculate_growth` after
`add_lag_metrics`), passenger growth from the notebook code path
(`nb_growth_metrics`); each is defined, with value (cur − prev) / prev, at
every record whose corresponding lag is defined and nonzero. -/
theorem growth_three_metrics (t : List FinRow) :
    (∀ r ∈ calculate_growth (add_lag_metrics t),
      (∀ p, r.lag_revenue = some p → p ≠ 0 →
        r.revenue_growth = some ((r.revenue - p) / p)) ∧
      (∀ p, r.lag_profit = some p → p ≠ 0 →
        r.profit_growth = some ((r.profit - p) / p))) ∧
    (∀ r ∈ nb_growth_metrics t,
      (∀ p, r.passengers_prev = some p → p ≠ 0 →
        r.passenger_growth = some ((r.passengers - p) / p)) ∧
      (∀ p, r.revenue_prev = some p → p ≠ 0 →
        r.revenue_growth = some ((r.revenue - p) / p))) := by
  constructor
  · intro r hr
    obtain ⟨a, _, rfl⟩ := List.mem_map.mp hr
    constructor
    · intro p hp hne
      show growthVal a.revenue a.lag_revenue = _
      rw [show a.lag_revenue = some p from hp]
      exact growthVal_of_ne _ p hne
    · intro p hp hne
      show growthVal a.profit a.lag_profit = _
      rw [show a.lag_profit = some p from hp]
      exact growthVal_of_ne _ p hne
  · intro r hr
    obtain ⟨hpg, hrg⟩ := nbAux_growth (sortRouteMonth t) [] r hr
    constructor
    · intro p hp hne
      rw [hpg, hp]
      exact growthVal_of_ne _ p hne
    · intro p hp hne
      rw [hrg, hp]
      exact growthVal_of_ne _ p hne

/-- Witness for C6 at a record with defined, nonzero lags on both paths. -/
theorem growth_three_metrics_witness :
    1 < (calculate_growth (add_lag_metrics demoFin)).length ∧
    1 < (nb_growth_metrics demoFin).length ∧
    ((nb_growth_metrics demoFin).get ⟨1, by decide⟩).passengers_prev = some 80 ∧
    ((calculate_growth (add_lag_metrics demoFin)).get ⟨1, by decide⟩).profit_growth =
      some ((((calculate_growth (add_lag_metrics demoFin)).get ⟨1, by decide⟩).profit
        - 15500) / 15500) ∧
    ((nb_growth_metrics demoFin).get ⟨1, by decide⟩).passenger_growth =
      some ((((nb_growth_metrics demoFin).get ⟨1, by decide⟩).passengers - 80) / 80) :=
  ⟨by decide, by decide, by decide,
    ((growth_three_metrics demoFin).1 _ (List.get_mem _ 1 (by decide))).2 15500
      (by decide) (by decide),
    ((growth_three_metrics demoFin).2 _ (List.get_mem _ 1 (by decide))).1 80
      (by decide) (by decide)⟩

theorem fleetKeys_nodup (t : List EnrichedRow) : (fleetKeys t).Nodup :=
  ((List.perm_insertionSort _ _).nodup_iff).mpr (List.nodup_dedup _)

theorem mem_fleetKeys (t : List EnrichedRow) (k : String) :
    k ∈ fleetKeys t ↔ k ∈ t.filterMap (fun r => r.aircraft_type) := by
  unfold fleetKeys
  rw [(List.perm_insertionSort _ _).mem_iff, List.mem_dedup]

theorem fleet_types (t : List EnrichedRow) :
    (compute_fleet_utilization t).map (fun e => e.aircraft_type) = fleetKeys t := by
  simp only [compute_fleet_utilization, List.map_map]
  have : ((fun e : FleetRow => e.aircraft_type) ∘ fleetRowOf t) = fun k => k := by
    funext k
    rfl
  rw [this]
  exact List.map_id _

/-- C10: the fleet utilization summary has exactly one row per defined
aircraft type present in the input and no row for the undefined group:
records whose `aircraft_type` is undefined are dropped by the groupby
(pandas drops the NaN key), so their passengers contribute to no group's
total or mean. -/
theorem fleet_excludes_undefined (t : List EnrichedRow) :
    (((compute_fleet_utilization t).map (fun e => e.aircraft_type)).Nodup) ∧
    (∀ k : String,
      k ∈ (compute_fleet_utilization t).map (fun e => e.aircraft_type) ↔
        some k ∈ t.map (fun r => r.aircraft_type)) ∧
    (∀ e ∈ compute_fleet_utilization t,
      e.total_passengers =
        ((t.filter (fun r => r.aircraft_type == some e.aircraft_type)).map
          (fun r => r.passengers)).sum ∧
      e.avg_passengers_per_flight =
        meanQ ((t.filter (fun r => r.aircraft_type == some e.aircraft_type)).map
          (fun r => r.passengers))) := by
  refine ⟨?_, ?_, ?_⟩
  · rw [fleet_types]
    exact fleetKeys_nodup t
  · intro k
    rw [fleet_types, mem_fleetKeys, List.mem_filterMap]
    constructor
    · rintro ⟨r, hr, hk⟩
      exact List.mem_map.mpr ⟨r, hr, hk⟩
    · rintro hk
      obtain ⟨r, hr, hk⟩ := List.mem_map.mp hk
      exact ⟨r, hr, hk⟩
  · intro e he
    obtain ⟨k, _, rfl⟩ := List.mem_map.mp he
    exact ⟨rfl, rfl⟩

/-- Witness for C10 on the demo table: the single summary row aggregates
exactly the records of its aircraft type. -/
theorem fleet_excludes_undefined_witness :
    0 < (compute_fleet_utilization demoEnriched).length ∧
    ((compute_fleet_utilization demoEnriched).get ⟨0, by decide⟩).total_passengers =
      ((demoEnriched.filter (fun r => r.aircraft_type ==
          some (((compute_fleet_utilization demoEnriched).get
            ⟨0, by decide⟩).aircraft_type))).map (fun r => r.passengers)).sum :=
  ⟨by decide,
    ((fleet_excludes_undefined demoEnriched).2.2 _ (List.get_mem _ 0 (by decide))).1⟩

/-- Two records sharing an aircraft type but with different seat
configurations: the integrity violation the spec wants flagged. -/
def badFleetTable : List EnrichedRow :=
  [{ origin := "B", destination := "S", month := 1, passengers := 150, avg_fare := 1,
     seats := 1, distance_miles := 1, competitor_seats := 1, load_factor := 1,
     route := "B-S", aircraft_type := some ("A320"), seats_configured := some 162 },
   { origin := "B", destination := "D", month := 1, passengers := 100, avg_fare := 1,
     seats := 1, distance_miles := 1, competitor_seats := 1, load_factor := 1,
     route := "B-D", aircraft_type := some ("A320"), seats_configured := some 100 }]

/-- C9 counterexample: on a table whose single aircraft-type group has a
non-constant `seats_configured` column, `compute_fleet_utilization` does not
fail or report anything — it returns an ordinary summary row carrying the
first record's value (162), silently ignoring the second (100). -/
theorem fleet_no_validation_counterexample :
    (badFleetTable.get ⟨0, by decide⟩).aircraft_type =
      (badFleetTable.get ⟨1, by decide⟩).aircraft_type ∧
    (badFleetTable.get ⟨0, by decide⟩).seats_configured ≠
      (badFleetTable.get ⟨1, by decide⟩).seats_configured ∧
    (compute_fleet_utilization badFleetTable).map (fun e => e.seats_configured) =
      [some 162] := by
  decide

/-- C9 (amended): `compute_fleet_utilization` performs no invariance check
and never fails; each group's `seats_configured` is silently the first
non-null value among the group's records, even when the column is not
constant across the group. -/
theorem fleet_seats_first_silent (t : List EnrichedRow) :
    ∀ e ∈ compute_fleet_utilization t,
      e.seats_configured =
        ((t.filter (fun r => r.aircraft_type == some e.aircraft_type)).filterMap
          (fun r => r.seats_configured)).head? := by
  intro e he
  obtain ⟨k, _, rfl⟩ := List.mem_map.mp he
  rfl

/-- Witness for C9 at the non-invariant table. -/
theorem fleet_seats_first_silent_witness :
    0 < (compute_fleet_utilization badFleetTable).length ∧
    ((compute_fleet_utilization badFleetTable).get ⟨0, by decide⟩).seats_configured =
      ((badFleetTable.filter (fun r => r.aircraft_type ==
          some (((compute_fleet_utilization badFleetTable).get
            ⟨0, by decide⟩).aircraft_type))).filterMap
        (fun r => r.seats_configured)).head? :=
  ⟨by decide, fleet_seats_first_silent badFleetTable _ (List.get_mem _ 0 (by decide))⟩

/-- C2: after `apply_financial_metrics`, every record simultaneously
satisfies revenue = passengers × avg_fare, the cost model, profit =
revenue − cost, and profit_margin = profit / revenue (undefined exactly at
zero revenue); the stage returns a full table with no partial state. -/
theorem financial_metrics_consistency (t : List EnrichedRow) :
    (apply_financial_metrics t).length = t.length ∧
    ∀ i (h : i < (apply_financial_metrics t).length),
      ((apply_financial_metrics t).get ⟨i, h⟩).revenue =
        ((apply_financial_metrics t).get ⟨i, h⟩).passengers *
          ((apply_financial_metrics t).get ⟨i, h⟩).avg_fare ∧
      ((apply_financial_metrics t).get ⟨i, h⟩).cost =
        ((apply_financial_metrics t).get ⟨i, h⟩).passengers * 65 + 18000 * 30 ∧
      ((apply_financial_metrics t).get ⟨i, h⟩).profit =
        ((apply_financial_metrics t).get ⟨i, h⟩).revenue -
          ((apply_financial_metrics t).get ⟨i, h⟩).cost ∧
      ((apply_financial_metrics t).get ⟨i, h⟩).profit_margin =
        divQ ((apply_financial_metrics t).get ⟨i, h⟩).profit
          ((apply_financial_metrics t).get ⟨i, h⟩).revenue := by
  constructor
  · simp [apply_financial_metrics, calculate_profit, calculate_cost, calculate_revenue]
  · intro i h
    simp only [apply_financial_metrics, calculate_profit, calculate_cost, calculate_revenue,
      List.get_map]
    exact ⟨rfl, rfl, rfl, rfl⟩

/-- Witness for C2 at a concrete record of the demo table. -/
theorem financial_metrics_consistency_witness :
    0 < (apply_financial_metrics demoEnriched).length ∧
    ((apply_financial_metrics demoEnriched).get ⟨0, by decide⟩).profit =
      ((apply_financial_metrics demoEnriched).get ⟨0, by decide⟩).revenue -
        ((apply_financial_metrics demoEnriched).get ⟨0, by decide⟩).cost :=
  ⟨by decide, ((financial_metrics_consistency demoEnriched).2 0 (by decide)).2.2.1⟩

/-- C3: in `calculate_growth`, a growth value is the undefined sentinel
exactly when the corresponding lag is undefined or zero (no division error,
no other value), and otherwise equals (cur − prev) / prev. -/
theorem growth_division_guard (t : List LagRow) :
    ∀ i (h : i < (calculate_growth t).length),
      (((calculate_growth t).get ⟨i, h⟩).revenue_growth = none ↔
        ((calculate_growth t).get ⟨i, h⟩).lag_revenue = none ∨
          ((calculate_growth t).get ⟨i, h⟩).lag_revenue = some 0) ∧
      (∀ p, ((calculate_growth t).get ⟨i, h⟩).lag_revenue = some p → p ≠ 0 →
        ((calculate_growth t).get ⟨i, h⟩).revenue_growth =
          some ((((calculate_growth t).get ⟨i, h⟩).revenue - p) / p)) ∧
      (((calculate_growth t).get ⟨i, h⟩).profit_growth = none ↔
        ((calculate_growth t).get ⟨i, h⟩).lag_profit = none ∨
          ((calculate_growth t).get ⟨i, h⟩).lag_profit = some 0) ∧
      (∀ p, ((calculate_growth t).get ⟨i, h⟩).lag_profit = some p → p ≠ 0 →
        ((calculate_growth t).get ⟨i, h⟩).profit_growth =
          some ((((calculate_growth t).get ⟨i, h⟩).profit - p) / p)) := by
  intro i h
  simp only [calculate_growth, List.get_map]
  refine ⟨growthVal_none_iff _ _, ?_, growthVal_none_iff _ _, ?_⟩
  · intro p hp hne
    show growthVal _ _ = _
    rw [show (t.get ⟨i, by simpa [calculate_growth] using h⟩).lag_revenue = some p from hp]
    exact growthVal_of_ne _ p hne
  · intro p hp hne
    show growthVal _ _ = _
    rw [show (t.get ⟨i, by simpa [calculate_growth] using h⟩).lag_profit = some p from hp]
    exact growthVal_of_ne _ p hne

/-- Witness for C3 at a concrete record with a defined, nonzero lag. -/
theorem growth_division_guard_witness :
    1 < (calculate_growth (add_lag_metrics demoFin)).length ∧
    ((calculate_growth (add_lag_metrics demoFin)).get ⟨1, by decide⟩).lag_revenue =
      some 16000 ∧
    ((calculate_growth (add_lag_metrics demoFin)).get ⟨1, by decide⟩).revenue_growth =
      some ((((calculate_growth (add_lag_metrics demoFin)).get ⟨1, by decide⟩).revenue
        - 16000) / 16000) :=
  ⟨by decide, by decide,
    (growth_division_guard (add_lag_metrics demoFin) 1 (by decide)).2.1 16000
      (by decide) (by norm_num)⟩

end JetBlue
